import Mathlib

/-!
Verification development for the Hotel-Churn data pipeline
(`src/data_generator.py`, `src/quality_check.py`, `src/ingest.py`,
`src/schema.py`).

Dates and timestamps are modelled as integers (days); money as rationals.
Randomness is modelled by passing the draws of the random source in
explicitly: each Python random primitive becomes a function of a raw draw,
with exactly the support the primitive has.
-/

namespace HotelChurn

/-- Python `int(q)`: truncation toward zero. -/
def pyInt (q : ℚ) : ℤ :=
  if 0 ≤ q then ⌊q⌋ else ⌈q⌉

/-- Clamp a raw draw into the unit interval; a raw draw of the random source,
normalised. -/
def clamp01 (q : ℚ) : ℚ :=
  max 0 (min 1 q)

/-- Python `random.uniform(a, b)`: support is the closed interval [a, b]
(for a ≤ b); the raw draw is the normalised position inside it. -/
def uniform (a b raw : ℚ) : ℚ :=
  a + (b - a) * clamp01 raw

/-- Python `random.gauss(mu, sigma)`: a normal draw may land anywhere, so the
outcome is mu + sigma times an unconstrained standard draw. -/
def gauss (mu sigma draw : ℚ) : ℚ :=
  mu + sigma * draw

/-- Python `random.randint(a, b)`: uniform integer in [a, b]. -/
def randint (a b : ℤ) (raw : ℕ) : ℤ :=
  a + ((raw % (b - a + 1).toNat : ℕ) : ℤ)

/-- Python `random.choice(l)`: uniform element of the list; `d` is a dummy
default that is never reached when the list is non-empty. -/
def choice {α : Type} (l : List α) (d : α) (raw : ℕ) : α :=
  l.getD (raw % l.length) d

/-- Faker `date_between(start, finish)` on a non-degenerate range
(start ≤ finish): uniform date in [start, finish]. On a reversed range the
library raises instead of returning a date; that error path is modelled by
`date_between_checked` below, and the `else` branch here is a placeholder
that theorems about reversed ranges never rely on. -/
def date_between (start finish : ℤ) (raw : ℕ) : ℤ :=
  if start ≤ finish then start + ((raw % (finish - start + 1).toNat : ℕ) : ℤ)
  else start

/-- Faker `date_between(start, finish)` with its error path: equal endpoints
are fine, but for a reversed range (start strictly after finish) the
underlying `random.randint` raises ValueError, modelled as `none`. On success
it draws the same uniform date as `date_between`. -/
def date_between_checked (start finish : ℤ) (raw : ℕ) : Option ℤ :=
  if start ≤ finish then some (start + ((raw % (finish - start + 1).toNat : ℕ) : ℤ))
  else none

/-- Python `round(x, 2)`: rounding to two decimal places. -/
def round2 (q : ℚ) : ℚ :=
  ((⌊q * 100 + 1 / 2⌋ : ℤ) : ℚ) / 100

/-- Whether a list of keys contains a duplicate (pandas `.duplicated().any()`). -/
def hasDup {α : Type} [DecidableEq α] : List α → Bool
  | [] => false
  | x :: xs => xs.contains x || hasDup xs

/-! Entity model, from `src/schema.py`. -/

/-- A row of the `customers` table (`src/schema.py`, class `Customer`). -/
structure Customer where
  customer_id : ℤ
  join_date : ℤ
  age : ℤ
  job_category : String
  deriving DecidableEq, Repr

/-- A row of the `bookings` table (`src/schema.py`, class `Booking`). -/
structure Booking where
  customer_id : ℤ
  check_in_date : ℤ
  check_out_date : ℤ
  amount_spent : ℚ
  room_type : String
  booking_channel : String
  num_adults : ℤ
  num_children : ℤ
  special_requests : String
  status : String
  deriving DecidableEq, Repr

/-- A row of the `support_logs` table (`src/schema.py`, class `SupportLog`). -/
structure SupportLog where
  customer_id : ℤ
  date : ℤ
  log_text : String
  deriving DecidableEq, Repr

/-- Modelled from the spec: `config/config.yaml` is not in the repository
snapshot; per the spec's Configuration collaborator it provides per-segment
`avg_nights_per_stay`, a `cancellation_rate`, weekly generation volumes and
the quality thresholds `max_booking_amount`, `min_nights_stay`,
`max_nights_stay`. -/
structure Config where
  avg_nights_business : ℚ
  avg_nights_vacation : ℚ
  avg_nights_occasional : ℚ
  cancellation_rate : ℚ
  max_booking_amount : ℚ
  min_nights_stay : ℤ
  max_nights_stay : ℤ
  bookings_per_week : ℕ
  deriving DecidableEq, Repr

/-- Lookup `config['customer_segments'][job_category]['avg_nights_per_stay']`. -/
def avgNightsPerStay (cfg : Config) (job_category : String) : ℚ :=
  if job_category = "business_traveler" then cfg.avg_nights_business
  else if job_category = "vacation_traveler" then cfg.avg_nights_vacation
  else cfg.avg_nights_occasional

/-! Generator engine, from `src/data_generator.py`. -/

/-- The random draws consumed while generating one booking inside the loop of
`generate_bookings_for_customer`. -/
structure BookingDraws where
  checkInRaw : ℕ
  gaussDraw : ℚ
  roomRaw : ℕ
  jitterRaw : ℚ
  cancelRaw : ℚ
  statusRaw : ℕ
  channelRaw : ℕ
  adultsRaw : ℕ
  childrenRaw : ℕ
  requestRaw : ℕ
  deriving DecidableEq, Repr

/-- The random draws consumed by one call of
`generate_bookings_for_customer`: the count jitter plus a stream of
per-booking draws. -/
structure GenDraws where
  countU : ℚ
  perBooking : ℕ → BookingDraws

/-- Room types offered (`data_generator.py` line 77). -/
def room_types : List String := ["Queen Bed", "King Bed", "Suite"]

/-- Booking channels (`data_generator.py` line 78). -/
def channels : List String := ["Direct Website", "Agent", "OTA (Booking.com)", "Walk-in"]

/-- Booking statuses (`data_generator.py` line 79). -/
def statuses : List String := ["Checked-Out", "Cancelled", "No-Show"]

/-- Special request options (`data_generator.py` line 80). -/
def special_requests_options : List String :=
  ["None", "Pet Friendly", "Accessible Room", "Crib", "High Floor"]

/-- Base nightly rate per room type (`data_generator.py` line 93). -/
def base_price (room_type : String) : ℚ :=
  if room_type = "Queen Bed" then 120
  else if room_type = "King Bed" then 150
  else 300

/-- Number of bookings to generate (`data_generator.py` lines 63 to 74):
the segment rate scaled by the years in range, jittered uniformly in
[0.5, 1.5] and floored at 1. -/
def numBookings (job_category : String) (start_date end_date : ℤ) (countU : ℚ) : ℤ :=
  let days_in_range : ℤ := end_date - start_date
  let years_in_range : ℚ := (days_in_range : ℚ) / 365
  let n0 : ℤ :=
    if job_category = "business_traveler" then pyInt (years_in_range * 12)
    else if job_category = "vacation_traveler" then pyInt (years_in_range * 4)
    else pyInt (years_in_range * 1)
  max 1 (pyInt ((n0 : ℚ) * uniform (1 / 2) (3 / 2) countU))

/-- One iteration of the booking loop of `generate_bookings_for_customer`
(`data_generator.py` lines 82 to 114). -/
def mkBooking (cfg : Config) (customer : Customer) (start_date end_date : ℤ)
    (d : BookingDraws) : Booking :=
  let check_in := date_between start_date end_date d.checkInRaw
  let avg_nights := avgNightsPerStay cfg customer.job_category
  let nights : ℤ := max 1 (pyInt (gauss avg_nights 2 d.gaussDraw))
  let check_out := check_in + nights
  let room_type := choice room_types "Queen Bed" d.roomRaw
  let amount : ℚ := base_price room_type * (nights : ℚ) * uniform (4 / 5) (6 / 5) d.jitterRaw
  let status :=
    if clamp01 d.cancelRaw < cfg.cancellation_rate then
      choice ["Cancelled", "No-Show"] "Cancelled" d.statusRaw
    else "Checked-Out"
  { customer_id := customer.customer_id
    check_in_date := check_in
    check_out_date := check_out
    amount_spent := round2 amount
    room_type := room_type
    booking_channel := choice channels "Direct Website" d.channelRaw
    num_adults := randint 1 4 d.adultsRaw
    num_children := randint 0 3 d.childrenRaw
    special_requests := choice special_requests_options "None" d.requestRaw
    status := status }

/-- `generate_bookings_for_customer(customer, start_date, end_date)`
(`data_generator.py` lines 47 to 116). -/
def generate_bookings_for_customer (cfg : Config) (customer : Customer)
    (start_date end_date : ℤ) (rng : GenDraws) : List Booking :=
  let n := numBookings customer.job_category start_date end_date rng.countU
  (List.range n.toNat).map (fun i => mkBooking cfg customer start_date end_date (rng.perBooking i))

/-- One iteration of the booking loop of `generate_bookings_for_customer`
with faker's error path: on a reversed range the check-in draw raises and the
exception propagates out of the loop; otherwise the booking is built exactly
as in `mkBooking`. -/
def mkBooking_checked (cfg : Config) (customer : Customer) (start_date end_date : ℤ)
    (d : BookingDraws) : Option Booking :=
  match date_between_checked start_date end_date d.checkInRaw with
  | none => none
  | some check_in =>
    let avg_nights := avgNightsPerStay cfg customer.job_category
    let nights : ℤ := max 1 (pyInt (gauss avg_nights 2 d.gaussDraw))
    let check_out := check_in + nights
    let room_type := choice room_types "Queen Bed" d.roomRaw
    let amount : ℚ := base_price room_type * (nights : ℚ) * uniform (4 / 5) (6 / 5) d.jitterRaw
    let status :=
      if clamp01 d.cancelRaw < cfg.cancellation_rate then
        choice ["Cancelled", "No-Show"] "Cancelled" d.statusRaw
      else "Checked-Out"
    some
      { customer_id := customer.customer_id
        check_in_date := check_in
        check_out_date := check_out
        amount_spent := round2 amount
        room_type := room_type
        booking_channel := choice channels "Direct Website" d.channelRaw
        num_adults := randint 1 4 d.adultsRaw
        num_children := randint 0 3 d.childrenRaw
        special_requests := choice special_requests_options "None" d.requestRaw
        status := status }

/-- `generate_bookings_for_customer` with faker's error path: the first
failing check-in draw aborts the whole call (the exception propagates), so
the result is the full booking list or nothing. -/
def generate_bookings_for_customer_checked (cfg : Config) (customer : Customer)
    (start_date end_date : ℤ) (rng : GenDraws) : Option (List Booking) :=
  let n := numBookings customer.job_category start_date end_date rng.countU
  (List.range n.toNat).mapM
    (fun i => mkBooking_checked cfg customer start_date end_date (rng.perBooking i))

/-- The dummy customer handed to `choice`; never selected from a non-empty
pool. -/
def fallbackCustomer : Customer :=
  { customer_id := 0, join_date := 0, age := 0, job_category := "occasional_visitor" }

/-- The booking loop of `generate_weekly_data` (`data_generator.py` lines
236 to 240), with the error paths of its collaborators: `random.choice`
raises on an empty customer pool and a reversed-range date draw raises out
of the loop; otherwise one customer is drawn per slot and the first booking
of that customer's generated list is appended when the list is non-empty. -/
def weeklyBookingSlotsChecked (cfg : Config) (all_customers : List Customer)
    (start_date end_date : ℤ) (pick : ℕ → ℕ) (rng : ℕ → GenDraws) :
    ℕ → Option (List Booking)
  | 0 => some []
  | n + 1 =>
    match weeklyBookingSlotsChecked cfg all_customers start_date end_date pick rng n with
    | none => none
    | some acc =>
      if all_customers = [] then none
      else
        let customer := choice all_customers fallbackCustomer (pick n)
        match generate_bookings_for_customer_checked cfg customer start_date end_date (rng n) with
        | none => none
        | some [] => some acc
        | some (b :: _) => some (acc ++ [b])

/-! Quality gate, from `src/quality_check.py`. A pandas DataFrame of bookings
is modelled as its list of rows plus flags for the two optional columns
(`booking_id` may be absent from an input batch; `nights` is the derived
column that check 4 assigns). -/

/-- One row of a bookings DataFrame. The `booking_id` and `nights` values are
meaningful only when the corresponding column-presence flag of the DataFrame
is set. -/
structure BookingRow where
  booking_id : ℕ
  customer_id : ℤ
  check_in_date : ℤ
  check_out_date : ℤ
  amount_spent : ℚ
  room_type : String
  booking_channel : String
  num_adults : ℤ
  num_children : ℤ
  status : String
  nights : ℤ
  deriving DecidableEq, Repr

/-- A bookings DataFrame: rows plus presence flags of the optional columns. -/
structure BookingsDF where
  rows : List BookingRow
  hasBookingId : Bool
  hasNights : Bool
  deriving DecidableEq, Repr

/-- The pandera `booking_schema` check on a single row
(`quality_check.py` lines 17 to 30). -/
def bookingSchemaRowOk (cfg : Config) (r : BookingRow) : Bool :=
  (0 < r.customer_id) &&
  (0 ≤ r.amount_spent && r.amount_spent ≤ cfg.max_booking_amount) &&
  room_types.contains r.room_type &&
  channels.contains r.booking_channel &&
  (1 ≤ r.num_adults && r.num_adults ≤ 10) &&
  (0 ≤ r.num_children && r.num_children ≤ 10) &&
  statuses.contains r.status

/-- `booking_schema.validate(bookings_df, lazy=True)` succeeds iff every row
passes all column checks. -/
def bookingSchemaOk (cfg : Config) (df : BookingsDF) : Bool :=
  df.rows.all (bookingSchemaRowOk cfg)

/-- The assignment `bookings_df['nights'] = (check_out - check_in).dt.days`
(`quality_check.py` line 66): it mutates the DataFrame passed in. -/
def addNights (df : BookingsDF) : BookingsDF :=
  { df with
    hasNights := true
    rows := df.rows.map (fun r => { r with nights := r.check_out_date - r.check_in_date }) }

/-- Diagnostic of check 2 of `validate_bookings` (`quality_check.py` line 58). -/
def invalidDatesMsg (n : ℕ) : String :=
  "Found " ++ toString n ++ " bookings where check_out <= check_in"

/-- Diagnostic of check 4 of `validate_bookings` (`quality_check.py` line 72). -/
def invalidNightsMsg (n : ℕ) (min_nights max_nights : ℤ) : String :=
  "Found " ++ toString n ++ " bookings with invalid night count (must be "
    ++ toString min_nights ++ "-" ++ toString max_nights ++ ")"

/-- `validate_bookings(bookings_df)` (`quality_check.py` lines 41 to 80).
Returns the `(is_valid, error_message)` pair together with the state of the
DataFrame after the call (pandas column assignment mutates the argument). -/
def validate_bookings (cfg : Config) (df : BookingsDF) :
    (Bool × Option String) × BookingsDF :=
  if bookingSchemaOk cfg df = false then
    ((false, some "Schema validation failed"), df)
  else
    let invalid_dates := df.rows.filter (fun r => r.check_out_date ≤ r.check_in_date)
    if invalid_dates.length ≠ 0 then
      ((false, some (invalidDatesMsg invalid_dates.length)), df)
    else if df.hasBookingId && hasDup (df.rows.map (fun r => r.booking_id)) then
      ((false, some "Duplicate booking_ids found"), df)
    else
      let df2 := addNights df
      let invalid_nights := df2.rows.filter
        (fun r => r.nights < cfg.min_nights_stay || cfg.max_nights_stay < r.nights)
      if invalid_nights.length ≠ 0 then
        ((false, some (invalidNightsMsg invalid_nights.length cfg.min_nights_stay cfg.max_nights_stay)), df2)
      else
        ((true, none), df2)

/-- One row of a customers DataFrame. -/
structure CustomerRow where
  customer_id : ℤ
  join_date : ℤ
  age : ℤ
  job_category : String
  deriving DecidableEq, Repr

/-- A customers DataFrame: rows plus presence flag of the optional
`customer_id` column. -/
structure CustomersDF where
  rows : List CustomerRow
  hasCustomerId : Bool
  deriving DecidableEq, Repr

/-- The pandera `customer_schema` check on a single row
(`quality_check.py` lines 34 to 38). -/
def customerSchemaRowOk (r : CustomerRow) : Bool :=
  (18 ≤ r.age && r.age ≤ 100) &&
  ["business_traveler", "vacation_traveler", "occasional_visitor"].contains r.job_category

/-- `validate_customers(customers_df)` (`quality_check.py` lines 83 to 108);
the returned DataFrame state is unchanged (the function assigns no column). -/
def validate_customers (df : CustomersDF) : (Bool × Option String) × CustomersDF :=
  if df.rows.all customerSchemaRowOk = false then
    ((false, some "Schema validation failed"), df)
  else if df.hasCustomerId && hasDup (df.rows.map (fun r => r.customer_id)) then
    ((false, some "Duplicate customer_ids found"), df)
  else
    ((true, none), df)

/-- One row of a support-logs DataFrame. -/
structure LogRow where
  customer_id : ℤ
  date : ℤ
  log_text : String
  deriving DecidableEq, Repr

/-- A support-logs DataFrame: rows plus a flag for whether the three required
columns are all present. -/
structure LogsDF where
  rows : List LogRow
  hasRequiredCols : Bool
  deriving DecidableEq, Repr

/-- `validate_support_logs(logs_df)` (`quality_check.py` lines 111 to 139);
the returned DataFrame state is unchanged (the function assigns no column). -/
def validate_support_logs (df : LogsDF) : (Bool × Option String) × LogsDF :=
  if df.hasRequiredCols = false then
    ((false, some "Missing required columns"), df)
  else if df.rows.any (fun r => r.log_text = "") then
    ((false, some "Found empty log_text entries"), df)
  else if df.rows.any (fun r => r.customer_id ≤ 0) then
    ((false, some "Found invalid customer_ids (must be > 0)"), df)
  else
    ((true, none), df)

/-! Retention manager and pipeline orchestrator, from `src/ingest.py`. The
database is modelled as the three tables; a bulk `.delete()` becomes a filter
on the table, and its return value (the number of rows deleted) becomes the
length of the matching rows. -/

/-- The dataset: the three tables of `src/schema.py`. -/
structure DB where
  customers : List Customer
  bookings : List Booking
  logs : List SupportLog
  deriving DecidableEq, Repr

/-- `cleanup_old_data()` (`ingest.py` lines 20 to 81), parameterised over the
current time `now` in days. Computes `cutoff = now - 5*365 days`, deletes
Bookings with `check_in_date < cutoff`, SupportLogs with `date < cutoff`, then
deletes every Customer whose id is not among the customer ids of the Bookings
that survived. Returns the resulting dataset and the three deletion counts. -/
def cleanup_old_data (now : ℤ) (db : DB) : DB × (ℕ × ℕ × ℕ) :=
  let cutoff : ℤ := now - 5 * 365
  let old_bookings := (db.bookings.filter (fun b => b.check_in_date < cutoff)).length
  let keptBookings := db.bookings.filter (fun b => ¬ b.check_in_date < cutoff)
  let old_logs := (db.logs.filter (fun l => l.date < cutoff)).length
  let keptLogs := db.logs.filter (fun l => ¬ l.date < cutoff)
  let customers_to_keep := keptBookings.map (fun b => b.customer_id)
  let old_customers :=
    (db.customers.filter (fun c => ¬ customers_to_keep.contains c.customer_id)).length
  let keptCustomers := db.customers.filter (fun c => customers_to_keep.contains c.customer_id)
  ({ customers := keptCustomers, bookings := keptBookings, logs := keptLogs },
   (old_bookings, old_logs, old_customers))

/-- Steps 3 and 4 of `run_weekly_pipeline` (`ingest.py` lines 154 to 182):
generation failure returns False; the verification step has no handler, so a
failure there propagates as an exception. -/
def weeklyAfterCleanup (genOutcome verifyOutcome : Except String Unit) :
    Except String Bool :=
  match genOutcome with
  | .error _ => .ok false
  | .ok _ =>
    match verifyOutcome with
    | .error e => .error e
    | .ok _ => .ok true

/-- `run_weekly_pipeline()` (`ingest.py` lines 130 to 182), parameterised over
the outcomes of its collaborator calls. The cleanup outcome is consumed by a
handler that only logs: both branches continue to step 3. -/
def run_weekly_pipeline (connOk : Bool)
    (cleanupOutcome genOutcome verifyOutcome : Except String Unit) :
    Except String Bool :=
  if connOk = false then .ok false
  else
    match cleanupOutcome with
    | .ok _ => weeklyAfterCleanup genOutcome verifyOutcome
    | .error _ => weeklyAfterCleanup genOutcome verifyOutcome

/-! Concrete fixtures used by counterexamples and witnesses. -/

/-- A concrete configuration: 3 average nights for business travellers,
quality band [1, 30] nights, 5000 maximum booking amount. -/
def cfg0 : Config :=
  { avg_nights_business := 3
    avg_nights_vacation := 5
    avg_nights_occasional := 4
    cancellation_rate := 1 / 10
    max_booking_amount := 5000
    min_nights_stay := 1
    max_nights_stay := 30
    bookings_per_week := 3 }

/-- A concrete business-traveller customer. -/
def cust0 : Customer :=
  { customer_id := 1, join_date := 0, age := 40, job_category := "business_traveler" }

/-- Per-booking draws whose standard-normal draw is 500, an extreme but
possible outcome of `random.gauss`. -/
def draw0 : BookingDraws :=
  { checkInRaw := 0, gaussDraw := 500, roomRaw := 0, jitterRaw := 0, cancelRaw := 1,
    statusRaw := 0, channelRaw := 0, adultsRaw := 0, childrenRaw := 0, requestRaw := 0 }

/-- A draw state that replays `draw0` for every booking of the call. -/
def rng0 : GenDraws :=
  { countU := 0, perBooking := fun _ => draw0 }

/-- Benign per-booking draws whose channel draw selects index 2 of the channel
list. -/
def draw9 : BookingDraws :=
  { checkInRaw := 0, gaussDraw := 0, roomRaw := 0, jitterRaw := 0, cancelRaw := 1,
    statusRaw := 0, channelRaw := 2, adultsRaw := 0, childrenRaw := 0, requestRaw := 0 }

/-- A draw state that replays `draw9` for every booking of the call. -/
def rng9 : GenDraws :=
  { countU := 0, perBooking := fun _ => draw9 }

/-! Helper lemmas about the generator. -/

/-- Every call of the generator produces at least one booking: the count is
floored at 1, so the first booking of the list is always present. -/
theorem mkBooking_mem_generate (cfg : Config) (c : Customer) (s e : ℤ) (rng : GenDraws) :
    mkBooking cfg c s e (rng.perBooking 0) ∈ generate_bookings_for_customer cfg c s e rng := by
  unfold generate_bookings_for_customer
  refine List.mem_map.mpr ⟨0, List.mem_range.mpr ?_, rfl⟩
  have h1 : (1 : ℤ) ≤ numBookings c.job_category s e rng.countU := le_max_left 1 _
  omega

/-- The stay length of a generated booking, as the difference of its dates. -/
theorem mkBooking_nights (cfg : Config) (c : Customer) (s e : ℤ) (d : BookingDraws) :
    (mkBooking cfg c s e d).check_out_date - (mkBooking cfg c s e d).check_in_date
      = max 1 (pyInt (gauss (avgNightsPerStay cfg c.job_category) 2 d.gaussDraw)) := by
  simp [mkBooking]

/-! Claim C1. -/

/-- C1 counterexample: the stay length is drawn from an unbounded normal
distribution, so a draw of 500 (possible for `random.gauss`) produces a
booking of 1003 nights, far above the configured `max_nights_stay` of 30.
The claim that every generated booking's night count lies within the
configured band, over all states of the random source, is therefore false. -/
theorem C1_counterexample :
    ∃ b ∈ generate_bookings_for_customer cfg0 cust0 0 365 rng0,
      ¬ b.check_out_date - b.check_in_date ≤ cfg0.max_nights_stay := by
  refine ⟨mkBooking cfg0 cust0 0 365 (rng0.perBooking 0),
    mkBooking_mem_generate cfg0 cust0 0 365 rng0, ?_⟩
  rw [mkBooking_nights cfg0 cust0 0 365 (rng0.perBooking 0)]
  norm_num [rng0, draw0, cust0, cfg0, avgNightsPerStay, gauss, pyInt]

/-- C1 (amended): every booking produced by `generate_bookings_for_customer`
has `check_out_date` strictly after `check_in_date`, and its night count is
at least 1 — hence at least `min_nights_stay` whenever the configured lower
band is at most 1; the upper band `max_nights_stay` is not guaranteed, since
the normal stay-length draw is unbounded. -/
theorem C1_generated_booking_dates (cfg : Config) (c : Customer) (s e : ℤ)
    (rng : GenDraws) (b : Booking) (hmin : cfg.min_nights_stay ≤ 1)
    (hb : b ∈ generate_bookings_for_customer cfg c s e rng) :
    b.check_in_date < b.check_out_date ∧
    cfg.min_nights_stay ≤ b.check_out_date - b.check_in_date := by
  simp only [generate_bookings_for_customer, List.mem_map] at hb
  obtain ⟨i, -, rfl⟩ := hb
  have h := mkBooking_nights cfg c s e (rng.perBooking i)
  have h1 : (1 : ℤ) ≤ max 1 (pyInt (gauss (avgNightsPerStay cfg c.job_category) 2
      (rng.perBooking i).gaussDraw)) := le_max_left 1 _
  omega

/-- C1 witness: the amended theorem applied to a concrete configuration,
customer and draw state. -/
theorem C1_generated_booking_dates_witness :
    (mkBooking cfg0 cust0 0 365 (rng9.perBooking 0)).check_in_date
        < (mkBooking cfg0 cust0 0 365 (rng9.perBooking 0)).check_out_date ∧
      cfg0.min_nights_stay ≤ (mkBooking cfg0 cust0 0 365 (rng9.perBooking 0)).check_out_date
        - (mkBooking cfg0 cust0 0 365 (rng9.perBooking 0)).check_in_date :=
  C1_generated_booking_dates cfg0 cust0 0 365 rng9 _ (by decide)
    (mkBooking_mem_generate cfg0 cust0 0 365 rng9)

/-! Claim C7. -/

/-- The amount of a generated booking, as base rate times nights times the
uniform price jitter, rounded to cents. -/
theorem mkBooking_amount (cfg : Config) (c : Customer) (s e : ℤ) (d : BookingDraws) :
    (mkBooking cfg c s e d).amount_spent
      = round2 (base_price (choice room_types "Queen Bed" d.roomRaw)
          * ((max 1 (pyInt (gauss (avgNightsPerStay cfg c.job_category) 2 d.gaussDraw)) : ℤ) : ℚ)
          * uniform (4 / 5) (6 / 5) d.jitterRaw) := by
  simp [mkBooking]

/-- Rounding to cents preserves non-negativity. -/
theorem round2_nonneg {q : ℚ} (h : 0 ≤ q) : 0 ≤ round2 q := by
  unfold round2
  have h1 : (0 : ℤ) ≤ ⌊q * 100 + 1 / 2⌋ := by
    rw [Int.le_floor]
    push_cast
    linarith
  have h2 : (0 : ℚ) ≤ ((⌊q * 100 + 1 / 2⌋ : ℤ) : ℚ) := by exact_mod_cast h1
  linarith

/-- The base nightly rate is positive for every room-type string. -/
theorem base_price_nonneg (room_type : String) : 0 ≤ base_price room_type := by
  unfold base_price
  split
  · norm_num
  · split <;> norm_num

/-- C7 counterexample: with a stay-length draw of 500 the generated booking
costs 96288, exceeding the configured `max_booking_amount` of 5000; the claim
that `amount_spent ≤ max_booking_amount` over all draws of the random source
is therefore false. -/
theorem C7_counterexample :
    ∃ b ∈ generate_bookings_for_customer cfg0 cust0 0 365 rng0,
      ¬ b.amount_spent ≤ cfg0.max_booking_amount := by
  refine ⟨mkBooking cfg0 cust0 0 365 (rng0.perBooking 0),
    mkBooking_mem_generate cfg0 cust0 0 365 rng0, ?_⟩
  rw [mkBooking_amount cfg0 cust0 0 365 (rng0.perBooking 0)]
  norm_num [rng0, draw0, cust0, cfg0, avgNightsPerStay, gauss, pyInt, choice,
    room_types, base_price, uniform, clamp01, round2]

/-- C7 (amended): every booking produced by `generate_bookings_for_customer`
has a non-negative `amount_spent`; the configured upper bound
`max_booking_amount` is not guaranteed, since the night count that scales the
price is drawn from an unbounded normal distribution. -/
theorem C7_amount_nonneg (cfg : Config) (c : Customer) (s e : ℤ)
    (rng : GenDraws) (b : Booking)
    (hb : b ∈ generate_bookings_for_customer cfg c s e rng) :
    0 ≤ b.amount_spent := by
  simp only [generate_bookings_for_customer, List.mem_map] at hb
  obtain ⟨i, -, rfl⟩ := hb
  rw [mkBooking_amount cfg c s e (rng.perBooking i)]
  apply round2_nonneg
  have hbase := base_price_nonneg (choice room_types "Queen Bed" (rng.perBooking i).roomRaw)
  have hn : (0 : ℤ) ≤ max 1 (pyInt (gauss (avgNightsPerStay cfg c.job_category) 2
      (rng.perBooking i).gaussDraw)) := le_trans zero_le_one (le_max_left 1 _)
  have hn2 : (0 : ℚ) ≤ ((max 1 (pyInt (gauss (avgNightsPerStay cfg c.job_category) 2
      (rng.perBooking i).gaussDraw)) : ℤ) : ℚ) := by exact_mod_cast hn
  have hu : 0 ≤ uniform (4 / 5) (6 / 5) (rng.perBooking i).jitterRaw := by
    unfold uniform clamp01
    have : (0 : ℚ) ≤ max 0 (min 1 (rng.perBooking i).jitterRaw) := le_max_left 0 _
    nlinarith
  exact mul_nonneg (mul_nonneg hbase hn2) hu

/-- C7 witness: the amended theorem applied to a concrete configuration,
customer and draw state. -/
theorem C7_amount_nonneg_witness :
    0 ≤ (mkBooking cfg0 cust0 0 365 (rng9.perBooking 0)).amount_spent :=
  C7_amount_nonneg cfg0 cust0 0 365 rng9 _
    (mkBooking_mem_generate cfg0 cust0 0 365 rng9)

/-! Claim C9. -/

/-- A uniform choice from a non-empty list is an element of the list. -/
theorem choice_mem {α : Type} (l : List α) (d : α) (raw : ℕ) (h : l ≠ []) :
    choice l d raw ∈ l := by
  unfold choice
  have hlen : raw % l.length < l.length := Nat.mod_lt _ (List.length_pos.mpr h)
  rw [List.getD_eq_getElem l d hlen]
  exact List.getElem_mem hlen

/-- The channel of a generated booking is a uniform choice from the channel
list of `data_generator.py` line 78. -/
theorem mkBooking_channel (cfg : Config) (c : Customer) (s e : ℤ) (d : BookingDraws) :
    (mkBooking cfg c s e d).booking_channel = choice channels "Direct Website" d.channelRaw := by
  simp [mkBooking]

/-- A fully valid one-row bookings DataFrame. -/
def row0 : BookingRow :=
  { booking_id := 0, customer_id := 1, check_in_date := 0, check_out_date := 2,
    amount_spent := 100, room_type := "Queen Bed", booking_channel := "Agent",
    num_adults := 2, num_children := 0, status := "Checked-Out", nights := 0 }

/-- A bookings DataFrame holding just `row0`, without the optional columns. -/
def df0 : BookingsDF :=
  { rows := [row0], hasBookingId := false, hasNights := false }

/-- C9 counterexample: the third channel generated by the code is the string
`OTA (Booking.com)`, which is not among the four enumerated values
`Direct Website, Agent, OTA, Walk-in` of the claim. -/
theorem C9_counterexample :
    ∃ b ∈ generate_bookings_for_customer cfg0 cust0 0 365 rng9,
      (["Direct Website", "Agent", "OTA", "Walk-in"].contains b.booking_channel) = false := by
  refine ⟨mkBooking cfg0 cust0 0 365 (rng9.perBooking 0),
    mkBooking_mem_generate cfg0 cust0 0 365 rng9, ?_⟩
  rw [mkBooking_channel cfg0 cust0 0 365 (rng9.perBooking 0)]
  decide

/-- C9 (amended): every generated booking's channel lies in the code's channel
enumeration `Direct Website, Agent, OTA (Booking.com), Walk-in`, and a batch
accepted by `validate_bookings` has every row's channel in that same
enumeration (the schema's `isin` check); the plain value `OTA` is not one of
them. -/
theorem C9_channel_enumeration (cfg : Config) (c : Customer) (s e : ℤ)
    (rng : GenDraws) (df : BookingsDF) :
    (∀ b ∈ generate_bookings_for_customer cfg c s e rng,
        channels.contains b.booking_channel = true) ∧
    ((validate_bookings cfg df).1.1 = true →
      ∀ r ∈ df.rows, channels.contains r.booking_channel = true) ∧
    channels.contains "OTA" = false := by
  refine ⟨?_, ?_, by decide⟩
  · intro b hb
    simp only [generate_bookings_for_customer, List.mem_map] at hb
    obtain ⟨i, -, rfl⟩ := hb
    rw [mkBooking_channel cfg c s e (rng.perBooking i)]
    exact List.elem_eq_true_of_mem (choice_mem channels "Direct Website"
      (rng.perBooking i).channelRaw (by decide))
  · intro hvalid r hr
    by_cases hs : bookingSchemaOk cfg df = false
    · simp [validate_bookings, hs] at hvalid
    · have hs2 : bookingSchemaOk cfg df = true := by
        revert hs
        cases bookingSchemaOk cfg df <;> simp
      have hall := (List.all_eq_true.mp hs2) r hr
      simp only [bookingSchemaRowOk, Bool.and_eq_true] at hall
      tauto

/-- C9 witness: the amended theorem applied to a concrete generated booking
and to the concrete accepted batch `df0`. -/
theorem C9_channel_enumeration_witness :
    channels.contains (mkBooking cfg0 cust0 0 365 (rng9.perBooking 0)).booking_channel = true ∧
    channels.contains row0.booking_channel = true :=
  ⟨(C9_channel_enumeration cfg0 cust0 0 365 rng9 df0).1 _
      (mkBooking_mem_generate cfg0 cust0 0 365 rng9),
   (C9_channel_enumeration cfg0 cust0 0 365 rng9 df0).2.1 (by decide) row0 (by decide)⟩

/-! Claim C3. -/

/-- C3 counterexample: `validate_bookings` is not mutation-free — on a fully
valid batch it assigns the derived `nights` column into the DataFrame passed
in (`quality_check.py` line 66), so the DataFrame after the call differs from
the one before. -/
theorem C3_counterexample : (validate_bookings cfg0 df0).2 ≠ df0 := by decide

/-- C3 (amended): `validate_customers` and `validate_support_logs` return the
batch unchanged; `validate_bookings` returns the batch either unchanged (when
a check before check 4 fails) or with the derived `nights` column assigned
into it — beyond that column no data is altered, and each validator returns
an (ok, reason) pair. -/
theorem C3_validators_frame (cfg : Config) (bdf : BookingsDF) (cdf : CustomersDF)
    (ldf : LogsDF) :
    (validate_customers cdf).2 = cdf ∧
    (validate_support_logs ldf).2 = ldf ∧
    ((validate_bookings cfg bdf).2 = bdf ∨ (validate_bookings cfg bdf).2 = addNights bdf) := by
  refine ⟨?_, ?_, ?_⟩
  · simp only [validate_customers]
    split_ifs <;> rfl
  · simp only [validate_support_logs]
    split_ifs <;> rfl
  · simp only [validate_bookings]
    split_ifs <;> simp

/-! Claim C8. -/

/-- C8: the checks of `validate_bookings` run in order — a batch that fails
the pandera schema returns the schema diagnostic; a schema-valid batch
containing a row with `check_out_date ≤ check_in_date` (in particular one
with equal dates) fails with the check_in/check_out diagnostic carrying the
count of offending rows, regardless of any duplicate-id or night-band
violations further down the chain (the first failing check short-circuits). -/
theorem C8_date_check_short_circuit (cfg : Config) (df : BookingsDF) :
    (bookingSchemaOk cfg df = false →
      (validate_bookings cfg df).1 = (false, some "Schema validation failed")) ∧
    (bookingSchemaOk cfg df = true →
      (∃ r ∈ df.rows, r.check_out_date ≤ r.check_in_date) →
      (validate_bookings cfg df).1 =
        (false, some (invalidDatesMsg
          (df.rows.filter (fun r => r.check_out_date ≤ r.check_in_date)).length))) := by
  constructor
  · intro hs
    simp [validate_bookings, hs]
  · intro hs hbad
    obtain ⟨r, hr, hle⟩ := hbad
    have hne : (df.rows.filter (fun r => r.check_out_date ≤ r.check_in_date)).length ≠ 0 := by
      have : r ∈ df.rows.filter (fun r => r.check_out_date ≤ r.check_in_date) := by
        rw [List.mem_filter]
        exact ⟨hr, by simpa using hle⟩
      intro h0
      rw [List.length_eq_zero] at h0
      simp [h0] at this
    simp [validate_bookings, hs, hne]

/-- A bookings DataFrame realising Scenario 2: its first row has
`check_in_date = check_out_date` (day 19732, i.e. 2024-01-10) and the batch
also carries duplicate booking ids, which the date check short-circuits
past. -/
def df8 : BookingsDF :=
  { rows :=
      [{ booking_id := 7, customer_id := 1, check_in_date := 19732, check_out_date := 19732,
         amount_spent := 100, room_type := "Queen Bed", booking_channel := "Agent",
         num_adults := 2, num_children := 0, status := "Checked-Out", nights := 0 },
       { booking_id := 7, customer_id := 2, check_in_date := 19732, check_out_date := 19733,
         amount_spent := 150, room_type := "Suite", booking_channel := "Walk-in",
         num_adults := 1, num_children := 1, status := "Cancelled", nights := 0 }],
    hasBookingId := true, hasNights := false }

/-- C8 witness: the theorem applied to the Scenario-2 batch `df8`; the result
is the date diagnostic reporting exactly one offending row, even though the
batch also has duplicate booking ids. -/
theorem C8_date_check_short_circuit_witness :
    (validate_bookings cfg0 df8).1 =
      (false, some (invalidDatesMsg
        (df8.rows.filter (fun r => r.check_out_date ≤ r.check_in_date)).length)) :=
  (C8_date_check_short_circuit cfg0 df8).2 (by decide)
    ⟨df8.rows.head (by decide), by decide, by decide⟩

/-! Claims C2, C4 and C5, about `cleanup_old_data`. -/

/-- A dataset holding one customer and no bookings at all. -/
def db0 : DB := { customers := [cust0], bookings := [], logs := [] }

/-- C2 counterexample: on a dataset where the customer has no bookings at all,
`cleanup_old_data` removes that customer even though its set of referencing
bookings did not become empty as a result of the booking purge (it was empty
before the call); the claim that exactly the customers whose booking set
became empty as a result are removed, and no other, is therefore false. -/
theorem C2_counterexample :
    cust0 ∈ db0.customers ∧
    (¬ ∃ b ∈ db0.bookings, b.customer_id = cust0.customer_id) ∧
    cust0 ∉ (cleanup_old_data 0 db0).1.customers := by decide

/-- C2 (amended): `cleanup_old_data` keeps exactly the bookings with
`check_in_date` at or after the cutoff `now − 5·365 days`, the support logs
with timestamp at or after the cutoff, and exactly the customers that have at
least one referencing booking in the post-deletion booking set — which also
removes customers that had no bookings before the call. -/
theorem C2_cleanup_characterisation (now : ℤ) (db : DB) :
    (∀ b : Booking, b ∈ (cleanup_old_data now db).1.bookings ↔
        b ∈ db.bookings ∧ ¬ b.check_in_date < now - 5 * 365) ∧
    (∀ l : SupportLog, l ∈ (cleanup_old_data now db).1.logs ↔
        l ∈ db.logs ∧ ¬ l.date < now - 5 * 365) ∧
    (∀ c : Customer, c ∈ (cleanup_old_data now db).1.customers ↔
        c ∈ db.customers ∧ ∃ b ∈ (cleanup_old_data now db).1.bookings,
          b.customer_id = c.customer_id) := by
  refine ⟨?_, ?_, ?_⟩
  · intro b
    simp [cleanup_old_data, List.mem_filter]
  · intro l
    simp [cleanup_old_data, List.mem_filter]
  · intro c
    simp only [cleanup_old_data, List.mem_filter, List.elem_iff, List.mem_map]

/-- C4: after `cleanup_old_data` completes, every remaining customer has at
least one booking in the remaining booking set referencing it — no orphan
customer survives. -/
theorem C4_no_orphan_customers (now : ℤ) (db : DB) (c : Customer)
    (hc : c ∈ (cleanup_old_data now db).1.customers) :
    ∃ b ∈ (cleanup_old_data now db).1.bookings, b.customer_id = c.customer_id := by
  simp only [cleanup_old_data, List.mem_filter, List.elem_iff, List.mem_map] at hc ⊢
  tauto

/-- A dataset holding one customer with one recent booking. -/
def db2 : DB :=
  { customers := [cust0]
    bookings :=
      [{ customer_id := 1, check_in_date := 100, check_out_date := 102,
         amount_spent := 100, room_type := "Queen Bed", booking_channel := "Agent",
         num_adults := 2, num_children := 0, special_requests := "None",
         status := "Checked-Out" }]
    logs := [] }

/-- C4 witness: the theorem applied to a concrete dataset where the customer
survives cleanup. -/
theorem C4_no_orphan_customers_witness :
    ∃ b ∈ (cleanup_old_data 0 db2).1.bookings, b.customer_id = cust0.customer_id :=
  C4_no_orphan_customers 0 db2 cust0 (by decide)

/-- A dataset holding one booking whose check-in is exactly at the first
cutoff. -/
def db5 : DB :=
  { customers := []
    bookings :=
      [{ customer_id := 1, check_in_date := 0, check_out_date := 2,
         amount_spent := 100, room_type := "Queen Bed", booking_channel := "Agent",
         num_adults := 2, num_children := 0, special_requests := "None",
         status := "Checked-Out" }]
    logs := [] }

/-- C5 counterexample: running cleanup a second time with a cutoff later than
the first run's (now 1826 after now 1825, so the claim's condition of a
cutoff no earlier than the first run's holds) deletes the booking whose
check-in falls between the two cutoffs, so the second run's deletion counts
are not all zero. -/
theorem C5_counterexample :
    (1825 : ℤ) ≤ 1826 ∧
    (cleanup_old_data 1826 (cleanup_old_data 1825 db5).1).2 ≠ (0, 0, 0) := by decide

/-- C5 (amended): `cleanup_old_data` is idempotent at a fixed cutoff — a
second run with the same `now` as a completed first run, with no intervening
insertion, deletes zero bookings, zero support logs and zero customers; with
a strictly later cutoff the second run may delete rows in the gap. -/
theorem C5_second_cleanup_deletes_nothing (now : ℤ) (db : DB) :
    (cleanup_old_data now (cleanup_old_data now db).1).2 = (0, 0, 0) := by
  have hbooks : ((db.bookings.filter (fun b => ¬ b.check_in_date < now - 5 * 365)).filter
      (fun b => b.check_in_date < now - 5 * 365)) = [] := by
    rw [List.filter_eq_nil_iff]
    intro b hb
    rw [List.mem_filter] at hb
    simpa using hb.2
  have hlogs : ((db.logs.filter (fun l => ¬ l.date < now - 5 * 365)).filter
      (fun l => l.date < now - 5 * 365)) = [] := by
    rw [List.filter_eq_nil_iff]
    intro l hl
    rw [List.mem_filter] at hl
    simpa using hl.2
  have hkeep : ((db.bookings.filter (fun b => ¬ b.check_in_date < now - 5 * 365)).filter
      (fun b => ¬ b.check_in_date < now - 5 * 365))
      = db.bookings.filter (fun b => ¬ b.check_in_date < now - 5 * 365) := by
    rw [List.filter_eq_self]
    intro b hb
    rw [List.mem_filter] at hb
    exact hb.2
  have hcust : (((cleanup_old_data now db).1.customers).filter
      (fun c => ¬ (((cleanup_old_data now db).1.bookings.filter
          (fun b => ¬ b.check_in_date < now - 5 * 365)).map
            (fun b => b.customer_id)).contains c.customer_id)) = [] := by
    rw [List.filter_eq_nil_iff]
    intro c hc
    have hc2 := hc
    simp only [cleanup_old_data, List.mem_filter] at hc2
    simp only [cleanup_old_data]
    simp only [hkeep]
    simp at hc2 ⊢
    tauto
  simp only [cleanup_old_data] at hcust ⊢
  simp only [hbooks, hlogs, hkeep, hcust]
  simp

/-! Claim C6. -/

/-- C6: in the weekly pipeline a cleanup exception is swallowed — the run
proceeds identically to one whose cleanup succeeded, returning success when
generation and verification succeed; a generation failure after cleanup
returns failure, whether or not cleanup raised. -/
theorem C6_cleanup_failure_tolerated (msg e : String)
    (genOutcome verifyOutcome : Except String Unit) :
    run_weekly_pipeline true (.error msg) (.ok ()) (.ok ()) = .ok true ∧
    run_weekly_pipeline true (.error msg) genOutcome verifyOutcome
      = run_weekly_pipeline true (.ok ()) genOutcome verifyOutcome ∧
    run_weekly_pipeline true (.error msg) (.error e) verifyOutcome = .ok false ∧
    run_weekly_pipeline true (.ok ()) (.error e) verifyOutcome = .ok false :=
  ⟨rfl, rfl, rfl, rfl⟩

/-! Claim C10. -/

/-- The generator never returns an empty list: the booking count is floored
at 1 (`data_generator.py` line 74). -/
theorem generate_bookings_nonempty (cfg : Config) (c : Customer) (s e : ℤ)
    (rng : GenDraws) :
    generate_bookings_for_customer cfg c s e rng ≠ [] := by
  unfold generate_bookings_for_customer
  intro hnil
  have hlen := congrArg List.length hnil
  simp only [List.length_map, List.length_range, List.length_nil] at hlen
  have h1 : (1 : ℤ) ≤ numBookings c.job_category s e rng.countU := le_max_left 1 _
  omega

/-- On a non-degenerate range the checked loop body succeeds and agrees with
`mkBooking`. -/
theorem mkBooking_checked_eq (cfg : Config) (c : Customer) (s e : ℤ)
    (d : BookingDraws) (h : s ≤ e) :
    mkBooking_checked cfg c s e d = some (mkBooking cfg c s e d) := by
  unfold mkBooking_checked date_between_checked mkBooking date_between
  simp [h]

/-- Mapping a fallible step over a list succeeds elementwise when every step
succeeds. -/
theorem mapM_eq_map_of_forall {α β : Type} (f : α → Option β) (g : α → β) :
    ∀ l : List α, (∀ a ∈ l, f a = some (g a)) → l.mapM f = some (l.map g) := by
  intro l
  induction l with
  | nil => intro h; rfl
  | cons x xs ih =>
    intro h
    rw [List.mapM_cons, h x (by simp), ih (fun a ha => h a (by simp [ha])), List.map_cons]
    rfl

/-- On a non-degenerate range the checked generator does not raise and
returns exactly the bookings of the non-degenerate model. -/
theorem generate_checked_eq (cfg : Config) (c : Customer) (s e : ℤ)
    (rng : GenDraws) (h : s ≤ e) :
    generate_bookings_for_customer_checked cfg c s e rng
      = some (generate_bookings_for_customer cfg c s e rng) := by
  simp only [generate_bookings_for_customer_checked, generate_bookings_for_customer]
  exact mapM_eq_map_of_forall _ _ _
    (fun i _ => mkBooking_checked_eq cfg c s e (rng.perBooking i) h)

/-- For a non-degenerate range and a non-empty customer pool, every weekly
slot appends exactly one booking. -/
theorem weeklyBookingSlotsChecked_length (cfg : Config)
    (all_customers : List Customer) (s e : ℤ) (pick : ℕ → ℕ) (rng : ℕ → GenDraws)
    (hrange : s ≤ e) (hpool : all_customers ≠ []) (n : ℕ) :
    ∃ l, weeklyBookingSlotsChecked cfg all_customers s e pick rng n = some l ∧
      l.length = n := by
  induction n with
  | zero => exact ⟨[], rfl, rfl⟩
  | succ m ih =>
    obtain ⟨l, hl, hlen⟩ := ih
    have hgen := generate_checked_eq cfg
      (choice all_customers fallbackCustomer (pick m)) s e (rng m) hrange
    cases hg : generate_bookings_for_customer cfg
        (choice all_customers fallbackCustomer (pick m)) s e (rng m) with
    | nil => exact absurd hg (generate_bookings_nonempty cfg _ s e (rng m))
    | cons b bs =>
      refine ⟨l ++ [b], ?_, by simp [hlen]⟩
      rw [hg] at hgen
      simp only [weeklyBookingSlotsChecked, hl, if_neg hpool, hgen]

/-- C10 counterexample: on the reversed range (365, 0) the real
`generate_bookings_for_customer` raises (faker's `date_between` raises
ValueError through `random.randint` on an empty range) instead of returning
a non-empty list, so the claim's degenerate-range clause is false. -/
theorem C10_counterexample :
    generate_bookings_for_customer_checked cfg0 cust0 365 0 rng9 = none := by
  simp only [generate_bookings_for_customer_checked]
  obtain ⟨m, hm⟩ : ∃ m, (numBookings cust0.job_category 365 0 rng9.countU).toNat = m + 1 := by
    have h1 : (1 : ℤ) ≤ numBookings cust0.job_category 365 0 rng9.countU := le_max_left 1 _
    exact ⟨(numBookings cust0.job_category 365 0 rng9.countU).toNat - 1, by omega⟩
  rw [hm, List.range_succ_eq_map, List.mapM_cons]
  have hnone : mkBooking_checked cfg0 cust0 365 0 (rng9.perBooking 0) = none := by decide
  rw [hnone]
  rfl

/-- C10 (amended): for every range with `start_date ≤ end_date` (equal
endpoints included) `generate_bookings_for_customer` does not raise and
returns a non-empty list — the booking count is clamped below at 1 — while
for an end date strictly before the start date the call raises instead;
consequently, when the weekly run's customer pool is non-empty, each
iteration of its per-slot loop (whose 7-day window satisfies start ≤ end)
appends exactly one booking, so the weekly run persists exactly
`bookings_per_week` new bookings. -/
theorem C10_nonempty_and_weekly_count (cfg : Config) (c : Customer) (s e : ℤ)
    (rng : GenDraws) (all_customers : List Customer) (pick : ℕ → ℕ)
    (rngs : ℕ → GenDraws) (hrange : s ≤ e) (hpool : all_customers ≠ []) :
    generate_bookings_for_customer_checked cfg c s e rng
      = some (generate_bookings_for_customer cfg c s e rng) ∧
    generate_bookings_for_customer cfg c s e rng ≠ [] ∧
    ∃ l, weeklyBookingSlotsChecked cfg all_customers s e pick rngs
        cfg.bookings_per_week = some l ∧ l.length = cfg.bookings_per_week :=
  ⟨generate_checked_eq cfg c s e rng hrange,
   generate_bookings_nonempty cfg c s e rng,
   weeklyBookingSlotsChecked_length cfg all_customers s e pick rngs hrange hpool
     cfg.bookings_per_week⟩

/-- C10 witness: the amended theorem applied to the weekly run's 7-day window
and a one-customer pool. -/
theorem C10_nonempty_and_weekly_count_witness :
    generate_bookings_for_customer_checked cfg0 cust0 0 7 rng9
        = some (generate_bookings_for_customer cfg0 cust0 0 7 rng9) ∧
    generate_bookings_for_customer cfg0 cust0 0 7 rng9 ≠ [] ∧
    ∃ l, weeklyBookingSlotsChecked cfg0 [cust0] 0 7 (fun _ => 0) (fun _ => rng9)
        cfg0.bookings_per_week = some l ∧ l.length = cfg0.bookings_per_week :=
  C10_nonempty_and_weekly_count cfg0 cust0 0 7 rng9 [cust0] (fun _ => 0)
    (fun _ => rng9) (by decide) (by decide)

end HotelChurn
